import Mathlib

/-!
Verification development for the sockets subsystem of a screeps API client
(src/sockets/mod.rs): SockJS-style frame codec, channel addressing, retry
scheduler, session handler and sender.

The transport (ws), the user Handler and the shared token storage are
collaborators; they are modelled as an environment of response functions,
and every call the session makes to them is recorded in an effect trace.
-/

/-- An authentication token; the endpoints layer builds it from the token
string returned by the login endpoint, and the sender chains its characters
into the auth command, so it is string-valued. -/
abbrev Token := String

/-- Error carried by a failed frame parse; holds the raw frame text for
diagnostics. -/
structure FrameError where
  raw : String
deriving DecidableEq

/-- Opaque error produced by the websocket transport layer. -/
structure WsError where
  msg : String
deriving DecidableEq

/-- Errors delivered to the user handler's on_error callback: the
Unauthorized HTTP-layer error raised when no token is available, a frame
parse error, or a converted transport error. -/
inductive SockError
  | unauthorized
  | frame (e : FrameError)
  | ws (e : WsError)
deriving DecidableEq

/-- One application-level payload string extracted from a frame,
uninterpreted by this core. -/
structure ParsedMessage where
  payload : String
deriving DecidableEq

/-- Classification of one inbound transport frame. -/
inductive ParsedResult
  | Open
  | Close (code : Int) (reason : String)
  | Heartbeat
  | Message (msg : ParsedMessage)
  | Messages (messages : List ParsedMessage)
deriving DecidableEq

/-- Recovery-action tag stored in the retry mapping (src/sockets/mod.rs
lines 85-87: the single variant is Login). -/
inductive FailState
  | Login
deriving DecidableEq

/-- Hex value of one hexadecimal digit character, for JSON \u escapes. -/
def hexVal (c : Char) : Option Nat :=
  if '0' ≤ c ∧ c ≤ '9' then some (c.toNat - 48)
  else if 'a' ≤ c ∧ c ≤ 'f' then some (c.toNat - 97 + 10)
  else if 'A' ≤ c ∧ c ≤ 'F' then some (c.toNat - 65 + 10)
  else none

/-- Body of a JSON string literal, after the opening quote: returns the
decoded characters and the input remaining after the closing quote.
Standard JSON escapes are decoded; an invalid escape or a missing closing
quote fails. -/
def parseStrBody : List Char → List Char → Option (List Char × List Char)
  | _, [] => none
  | acc, c :: rest =>
    if c = '"' then some (acc.reverse, rest)
    else if c = '\\' then
      match rest with
      | [] => none
      | e :: rest2 =>
        if e = '"' then parseStrBody ('"' :: acc) rest2
        else if e = '\\' then parseStrBody ('\\' :: acc) rest2
        else if e = '/' then parseStrBody ('/' :: acc) rest2
        else if e = 'b' then parseStrBody ('\x08' :: acc) rest2
        else if e = 'f' then parseStrBody ('\x0c' :: acc) rest2
        else if e = 'n' then parseStrBody ('\n' :: acc) rest2
        else if e = 'r' then parseStrBody ('\r' :: acc) rest2
        else if e = 't' then parseStrBody ('\t' :: acc) rest2
        else if e = 'u' then
          match rest2 with
          | a :: b :: c2 :: d :: rest3 =>
            match hexVal a, hexVal b, hexVal c2, hexVal d with
            | some x, some y, some z, some w =>
              parseStrBody (Char.ofNat (((x * 16 + y) * 16 + z) * 16 + w) :: acc) rest3
            | _, _, _, _ => none
          | _ => none
        else none
    else parseStrBody (c :: acc) rest

/-- Skips JSON insignificant whitespace. -/
def skipWs : List Char → List Char
  | ' ' :: rest => skipWs rest
  | '\t' :: rest => skipWs rest
  | '\n' :: rest => skipWs rest
  | '\r' :: rest => skipWs rest
  | l => l

/-- Longest leading run of decimal digits, and the rest. -/
def takeDigits : List Char → List Char × List Char
  | [] => ([], [])
  | c :: rest =>
    if '0' ≤ c ∧ c ≤ '9' then
      let (ds, r) := takeDigits rest
      (c :: ds, r)
    else ([], c :: rest)

/-- Numeric value of a digit run. -/
def digitsToNat (l : List Char) : Nat :=
  l.foldl (fun acc c => acc * 10 + (c.toNat - 48)) 0

/-- A JSON integer (optional minus sign, then digits); close codes are
integers, so the fraction/exponent forms are not needed. -/
def parseInt : List Char → Option (Int × List Char)
  | '-' :: rest =>
    match takeDigits rest with
    | ([], _) => none
    | (ds, r) => some (-(digitsToNat ds : Int), r)
  | l =>
    match takeDigits l with
    | ([], _) => none
    | (ds, r) => some ((digitsToNat ds : Int), r)

/-- Body of a close frame: a JSON array of exactly a number and a string. -/
def parseCloseBody (l : List Char) : Option (Int × String) :=
  match skipWs l with
  | '[' :: l1 =>
    match parseInt (skipWs l1) with
    | none => none
    | some (code, l2) =>
      match skipWs l2 with
      | ',' :: l3 =>
        match skipWs l3 with
        | '"' :: l4 =>
          match parseStrBody [] l4 with
          | none => none
          | some (cs, l5) =>
            match skipWs l5 with
            | ']' :: l6 =>
              match skipWs l6 with
              | [] => some (code, String.mk cs)
              | _ => none
            | _ => none
        | _ => none
      | _ => none
  | _ => none

/-- Comma-separated JSON string items up to the closing bracket, with fuel
bounded by the input length. -/
def parseItems : Nat → List Char → Option (List String × List Char)
  | 0, _ => none
  | fuel + 1, l =>
    match skipWs l with
    | '"' :: l1 =>
      match parseStrBody [] l1 with
      | none => none
      | some (cs, l2) =>
        match skipWs l2 with
        | ',' :: l3 =>
          match parseItems fuel l3 with
          | none => none
          | some (ss, r) => some (String.mk cs :: ss, r)
        | ']' :: l3 => some ([String.mk cs], l3)
        | _ => none
    | _ => none

/-- Body of a messages-batch frame: a JSON array of strings. -/
def parseStrArray (l : List Char) : Option (List String) :=
  match skipWs l with
  | '[' :: l1 =>
    match skipWs l1 with
    | ']' :: l2 =>
      match skipWs l2 with
      | [] => some []
      | _ => none
    | _ =>
      match parseItems (l1.length + 1) l1 with
      | none => none
      | some (ss, r) =>
        match skipWs r with
        | [] => some ss
        | _ => none
  | _ => none

/-- Body of a single-message frame: one JSON string. -/
def parseMsgBody (l : List Char) : Option String :=
  match skipWs l with
  | '"' :: l1 =>
    match parseStrBody [] l1 with
    | none => none
    | some (cs, l2) =>
      match skipWs l2 with
      | [] => some (String.mk cs)
      | _ => none
  | _ => none

/-- Modelled from the spec: ParsedResult::parse lives in the sockets
parsing submodule, which is not among the provided sources; it is modelled
from spec section 4.1. The first character selects the frame kind: o =
Open (no body), h = Heartbeat (no body), c = Close with a [code, reason]
JSON body, m = single Message with a JSON-string body, a = Messages batch
with a JSON array-of-strings body; any other first character, or a body
not of the required shape, is a FrameError carrying the raw text. -/
def ParsedResult.parse (s : String) : Except FrameError ParsedResult :=
  match s.data with
  | [] => .error ⟨s⟩
  | c :: rest =>
    if c = 'o' then
      if rest.isEmpty then .ok .Open else .error ⟨s⟩
    else if c = 'h' then
      if rest.isEmpty then .ok .Heartbeat else .error ⟨s⟩
    else if c = 'c' then
      match parseCloseBody rest with
      | some (code, reason) => .ok (.Close code reason)
      | none => .error ⟨s⟩
    else if c = 'm' then
      match parseMsgBody rest with
      | some p => .ok (.Message ⟨p⟩)
      | none => .error ⟨s⟩
    else if c = 'a' then
      match parseStrArray rest with
      | some ss => .ok (.Messages (ss.map ParsedMessage.mk))
      | none => .error ⟨s⟩
    else .error ⟨s⟩

/-- Lower-case hex digit character, as serde_json emits in escapes. -/
def hexDigit (n : Nat) : Char :=
  if n < 10 then Char.ofNat (48 + n) else Char.ofNat (87 + n)

/-- JSON escaping of one character, following serde_json: quote and
backslash are escaped, control characters use the short escapes or a
\u00XX escape, everything else is emitted as itself. -/
def jsonEscapeChar (c : Char) : List Char :=
  if c = '"' then ['\\', '"']
  else if c = '\\' then ['\\', '\\']
  else if c = '\x08' then ['\\', 'b']
  else if c = '\x0c' then ['\\', 'f']
  else if c = '\n' then ['\\', 'n']
  else if c = '\r' then ['\\', 'r']
  else if c = '\t' then ['\\', 't']
  else if c.toNat < 32 then ['\\', 'u', '0', '0', hexDigit (c.toNat / 16), hexDigit (c.toNat % 16)]
  else [c]

/-- JSON escaping of a whole string. -/
def jsonEscape (s : String) : String :=
  ⟨s.data.foldr (fun c acc => jsonEscapeChar c ++ acc) []⟩

/-- serde_json serialization of the one-element tuple (message,): the
single-element JSON array with the message as its escaped string element
(Sender::send_raw, src/sockets/mod.rs lines 392-399). -/
def encode (message : String) : String :=
  "[\"" ++ jsonEscape message ++ "\"]"

/-- The channel variants one can subscribe to (src/sockets/mod.rs lines
172-228); the borrowed string fields become plain strings. -/
inductive Channel
  | ServerMessages
  | UserCpu (user_id : String)
  | UserMessages (user_id : String)
  | UserConversation (user_id : String) (target_user_id : String)
  | UserCredits (user_id : String)
  | UserMemoryPath (user_id : String) (path : String)
  | UserConsole (user_id : String)
  | UserActiveBranch (user_id : String)
  | MapRoomUpdates (room_name : String)
  | RoomUpdates (room_name : String)
deriving DecidableEq

/-- Constructor Channel::server_messages. -/
def Channel.server_messages : Channel := .ServerMessages

/-- Constructor Channel::user_cpu. -/
def Channel.user_cpu (user_id : String) : Channel := .UserCpu user_id

/-- Constructor Channel::user_messages. -/
def Channel.user_messages (user_id : String) : Channel := .UserMessages user_id

/-- Constructor Channel::user_convesation (sic, source spelling). -/
def Channel.user_convesation (user_id target_user_id : String) : Channel :=
  .UserConversation user_id target_user_id

/-- Constructor Channel::user_credits. -/
def Channel.user_credits (user_id : String) : Channel := .UserCredits user_id

/-- Constructor Channel::user_memory_path. -/
def Channel.user_memory_path (user_id path : String) : Channel :=
  .UserMemoryPath user_id path

/-- Constructor Channel::user_console. -/
def Channel.user_console (user_id : String) : Channel := .UserConsole user_id

/-- Constructor Channel::user_active_branch. -/
def Channel.user_active_branch (user_id : String) : Channel := .UserActiveBranch user_id

/-- Constructor Channel::map_room_updates. -/
def Channel.map_room_updates (room_name : String) : Channel := .MapRoomUpdates room_name

/-- Constructor Channel::room_updates. -/
def Channel.room_updates (room_name : String) : Channel := .RoomUpdates room_name

/-- Channel::chain_and_complete_message (src/sockets/mod.rs lines 300-342):
appends the channel description to the given start (the character-iterator
chaining becomes string concatenation). -/
def Channel.chain_and_complete_message (ch : Channel) (start : String) : String :=
  match ch with
  | .ServerMessages => start ++ "server-message"
  | .UserCpu user_id => start ++ "user:" ++ user_id ++ "/cpu"
  | .UserMessages user_id => start ++ "user:" ++ user_id ++ "/newMessage"
  | .UserConversation user_id target_user_id =>
    start ++ "user:" ++ user_id ++ "/message:" ++ target_user_id
  | .UserCredits user_id => start ++ "user:" ++ user_id ++ "/money"
  | .UserMemoryPath user_id path => start ++ "user:" ++ user_id ++ "/memory/" ++ path
  | .UserConsole user_id => start ++ "user:" ++ user_id ++ "/console"
  | .UserActiveBranch user_id => start ++ "user:" ++ user_id ++ "/set-active-branch"
  | .MapRoomUpdates room_name => start ++ "roomMap2:" ++ room_name
  | .RoomUpdates room_name => start ++ "room:" ++ room_name

/-- Channel::to_string: the topic string, built with an empty start. -/
def Channel.to_string (ch : Channel) : String :=
  ch.chain_and_complete_message ""

/-- Environment of collaborator responses: the transport's send and
timeout-arming results and the user handler's on_communication outcome.
Each function gives the result the collaborator returns when called. -/
structure Env where
  send : String → Except WsError Unit
  timeout : Nat → Nat → Except WsError Unit
  onComm : ParsedResult → Except WsError Unit

/-- One observable call the session makes on its collaborators: a
transport send of the exact frame text, an armed timer (delay in ms and
timer token), an on_error delivery, or an on_communication forward. -/
inductive Effect
  | send (frame : String)
  | timeout (ms : Nat) (tok : Nat)
  | onError (err : SockError)
  | onComm (result : ParsedResult)
deriving DecidableEq

/-- Session-owned state: the shared token storage contents (the default
TokenStorage is an optional token slot) and the retry mapping. -/
structure SessionState where
  token : Option Token
  retrying : List (Nat × FailState)
deriving DecidableEq

/-- Modelled from the spec: the TokenStorage trait's take_token is declared
outside the provided sources; per spec sections 2 and 3 take is an atomic
read-and-clear of the stored token. -/
def take_token (st : SessionState) : Option Token × SessionState :=
  (st.token, { st with token := none })

/-- Result of one session callback: the new session state, the trace of
collaborator calls in order, and the ws::Result the callback returns. -/
abbrev Step := SessionState × List Effect × Except WsError Unit

/-- Sender::send_raw (src/sockets/mod.rs lines 392-399): encodes the
command as a single-element JSON array and hands it to the transport. -/
def Sender.send_raw (env : Env) (message : String) : List Effect × Except WsError Unit :=
  ([.send (encode message)], env.send (encode message))

/-- Sender::authenticate (src/sockets/mod.rs lines 355-362): sends the
raw command auth-space-token. -/
def Sender.authenticate (env : Env) (token : Token) : List Effect × Except WsError Unit :=
  Sender.send_raw env ("auth " ++ token)

/-- Sender::subscribe (src/sockets/mod.rs lines 367-371). -/
def Sender.subscribe (env : Env) (channel : Channel) : List Effect × Except WsError Unit :=
  Sender.send_raw env (channel.chain_and_complete_message "subscribe ")

/-- Sender::unsubscribe (src/sockets/mod.rs lines 376-380). -/
def Sender.unsubscribe (env : Env) (channel : Channel) : List Effect × Except WsError Unit :=
  Sender.send_raw env (channel.chain_and_complete_message "unsubscribe ")

/-- Sender::send_empty_frame (src/sockets/mod.rs lines 383-389): hands the
literal two-character frame to the transport, bypassing the encode step. -/
def Sender.send_empty_frame (env : Env) : List Effect × Except WsError Unit :=
  ([.send "[]"], env.send "[]")

/-- Keys of the retry mapping. -/
def keysOf (l : List (Nat × FailState)) : List Nat :=
  l.map Prod.fst

/-- The linear probe of ApiHandler::mark_retry: starting at n, the first
value not among the keys, with enough fuel to always find one. -/
def probeFree (keys : List Nat) : Nat → Nat → Nat
  | 0, n => n
  | fuel + 1, n => if n ∈ keys then probeFree keys fuel (n + 1) else n

/-- The handle mark_retry picks: the linear probe from zero. -/
def freshHandle (l : List (Nat × FailState)) : Nat :=
  probeFree (keysOf l) (l.length + 1) 0

/-- HashMap::insert on the association-list model: the new binding, with
any previous binding of the same key removed. -/
def mapInsert (k : Nat) (v : FailState) (l : List (Nat × FailState)) : List (Nat × FailState) :=
  (k, v) :: l.filter (fun p => p.1 != k)

/-- HashMap::remove on the association-list model. -/
def mapRemove (k : Nat) (l : List (Nat × FailState)) : List (Nat × FailState) :=
  l.filter (fun p => p.1 != k)

/-- Millisecond delay computed by mark_retry from a Duration given as
seconds and subsecond nanoseconds (src/sockets/mod.rs line 104). -/
def duration_ms (secs subsec_nanos : Nat) : Nat :=
  subsec_nanos / 1000000 + secs * 1000

/-- ApiHandler::mark_retry (src/sockets/mod.rs lines 97-106): probes for
the smallest free handle, inserts the fail state under it, and arms a
transport timer for the delay tagged with that handle; the arming result
is the callback result. -/
def ApiHandler.mark_retry (env : Env) (st : SessionState) (failed : FailState)
    (retry_in_ms : Nat) : Step :=
  let num := freshHandle st.retrying
  ({ st with retrying := mapInsert num failed st.retrying },
   [.timeout retry_in_ms num],
   env.timeout retry_in_ms num)

/-- ApiHandler::try_or_retry_auth (src/sockets/mod.rs lines 108-119):
takes the stored token; if present, authenticates with it; if absent,
reports Unauthorized to the handler and schedules a Login retry in 15
seconds (an arming failure propagates). -/
def ApiHandler.try_or_retry_auth (env : Env) (st : SessionState) : Step :=
  match take_token st with
  | (some t, st1) =>
    let (effs, res) := Sender.authenticate env t
    (st1, effs, res)
  | (none, st1) =>
    let (st2, effs, res) := ApiHandler.mark_retry env st1 .Login (duration_ms 15 0)
    (st2, .onError .unauthorized :: effs,
     match res with
     | .error e => .error e
     | .ok _ => .ok ())

/-- ApiHandler::retry_failstate (src/sockets/mod.rs lines 121-125). -/
def ApiHandler.retry_failstate (env : Env) (st : SessionState) (state : FailState) : Step :=
  match state with
  | .Login => ApiHandler.try_or_retry_auth env st

/-- A websocket message: text or binary payload. -/
inductive WsMessage
  | Text (s : String)
  | Binary (b : List Nat)
deriving DecidableEq

/-- ApiHandler::on_message (src/sockets/mod.rs lines 133-159). A text
frame is parsed; on Open the authenticate-or-retry step runs with its
error converted and swallowed into on_error, on Heartbeat the literal
empty-array frame is sent on the inner transport sender with a send error
propagating, then the classified result is forwarded to on_communication
with its error propagating; a parse error goes to on_error and the
callback returns Ok. A binary frame is only logged and the callback
returns Ok. -/
def ApiHandler.on_message (env : Env) (st : SessionState) (msg : WsMessage) : Step :=
  match msg with
  | .Text s =>
    match ParsedResult.parse s with
    | .ok v =>
      let pre : Step :=
        match v with
        | .Open =>
          let (st2, effs, res) := ApiHandler.try_or_retry_auth env st
          match res with
          | .error e => (st2, effs ++ [.onError (.ws e)], .ok ())
          | .ok _ => (st2, effs, .ok ())
        | .Heartbeat => (st, [.send "[]"], env.send "[]")
        | _ => (st, [], .ok ())
      match pre with
      | (st1, effs1, .error e) => (st1, effs1, .error e)
      | (st1, effs1, .ok _) =>
        (st1, effs1 ++ [.onComm v],
         match env.onComm v with
         | .error e => .error e
         | .ok _ => .ok ())
    | .error e => (st, [.onError (.frame e)], .ok ())
  | .Binary _ => (st, [], .ok ())

/-- ApiHandler::on_timeout (src/sockets/mod.rs lines 161-168): removes the
timer token's entry from the retry mapping; when present, runs the
recovery action for its fail state with an error propagating; when absent,
only logs and returns Ok. -/
def ApiHandler.on_timeout (env : Env) (st : SessionState) (tok : Nat) : Step :=
  match List.lookup tok st.retrying with
  | some state =>
    let st1 := { st with retrying := mapRemove tok st.retrying }
    let (st2, effs, res) := ApiHandler.retry_failstate env st1 state
    (st2, effs,
     match res with
     | .error e => .error e
     | .ok _ => .ok ())
  | none => (st, [], .ok ())

/-- The sequential dispatch of a messages batch in the default
Handler::on_communication (src/sockets/mod.rs lines 50-57): each message
goes to on_message in order, stopping at the first error; returns the
messages actually dispatched and the overall result. -/
def dispatchList (omr : ParsedMessage → Except WsError Unit) :
    List ParsedMessage → List ParsedMessage × Except WsError Unit
  | [] => ([], .ok ())
  | m :: rest =>
    match omr m with
    | .error e => ([m], .error e)
    | .ok _ =>
      let (calls, res) := dispatchList omr rest
      (m :: calls, res)

/-- Default Handler::on_communication (src/sockets/mod.rs lines 44-74),
with the user on_message abstracted as its outcome function: a single
Message is dispatched once, a Messages batch is dispatched in order
stopping at the first error, and Heartbeat, Open and Close are ignored. -/
def Handler.on_communication (omr : ParsedMessage → Except WsError Unit)
    (result : ParsedResult) : List ParsedMessage × Except WsError Unit :=
  match result with
  | .Message m => ([m], omr m)
  | .Messages messages => dispatchList omr messages
  | .Heartbeat => ([], .ok ())
  | .Open => ([], .ok ())
  | .Close _ _ => ([], .ok ())

/-- Environment in which every collaborator call succeeds. -/
def envOk : Env :=
  ⟨fun _ => .ok (), fun _ _ => .ok (), fun _ => .ok ()⟩

/-- The frames handed to the transport within an effect trace. -/
def sentFrames (effs : List Effect) : List String :=
  effs.filterMap (fun e =>
    match e with
    | .send f => some f
    | _ => none)

/-- The linear probe, given enough fuel to reach a free value, returns a
value that is not a key, at least its start, and minimal: everything from
the start up to it is a key. -/
theorem probeFree_spec (keys : List Nat) :
    ∀ fuel n, (∃ m, n ≤ m ∧ m < n + fuel ∧ m ∉ keys) →
      probeFree keys fuel n ∉ keys ∧ n ≤ probeFree keys fuel n ∧
      ∀ k, n ≤ k → k < probeFree keys fuel n → k ∈ keys := by
  intro fuel
  induction fuel with
  | zero =>
    intro n h
    obtain ⟨m, h1, h2, _⟩ := h
    omega
  | succ fuel ih =>
    intro n h
    by_cases hn : n ∈ keys
    · have hstep : probeFree keys (fuel + 1) n = probeFree keys fuel (n + 1) := by
        simp [probeFree, hn]
      have hex : ∃ m, n + 1 ≤ m ∧ m < n + 1 + fuel ∧ m ∉ keys := by
        obtain ⟨m, h1, h2, h3⟩ := h
        have hmn : m ≠ n := fun he => h3 (he ▸ hn)
        exact ⟨m, by omega, by omega, h3⟩
      obtain ⟨r1, r2, r3⟩ := ih (n + 1) hex
      rw [hstep]
      refine ⟨r1, by omega, fun k hk1 hk2 => ?_⟩
      by_cases hkn : k = n
      · exact hkn ▸ hn
      · exact r3 k (by omega) hk2
    · have hstep : probeFree keys (fuel + 1) n = n := by
        simp [probeFree, hn]
      rw [hstep]
      exact ⟨hn, Nat.le_refl n, fun k hk1 hk2 => absurd hk2 (by omega)⟩

/-- Among the first length-plus-one naturals, at least one is not a key of
the mapping (pigeonhole). -/
theorem exists_free_handle (l : List (Nat × FailState)) :
    ∃ m, m ≤ l.length ∧ m ∉ keysOf l := by
  by_contra hcon
  push_neg at hcon
  have hsub : List.range (l.length + 1) ⊆ keysOf l := by
    intro x hx
    have hx2 := List.mem_range.mp hx
    exact hcon x (by omega)
  have hperm := List.subperm_of_subset (List.nodup_range _) hsub
  have hlen := hperm.length_le
  rw [List.length_range] at hlen
  have hkl : (keysOf l).length = l.length := List.length_map _ _
  omega

/-- The handle picked by the probe is not currently a key. -/
theorem freshHandle_not_mem (l : List (Nat × FailState)) :
    freshHandle l ∉ keysOf l := by
  obtain ⟨m, hm1, hm2⟩ := exists_free_handle l
  exact (probeFree_spec (keysOf l) (l.length + 1) 0 ⟨m, Nat.zero_le m, by omega, hm2⟩).1

/-- The handle picked by the probe is the smallest free one: everything
below it is a key. -/
theorem freshHandle_min (l : List (Nat × FailState)) :
    ∀ k, k < freshHandle l → k ∈ keysOf l := by
  intro k hk
  obtain ⟨m, hm1, hm2⟩ := exists_free_handle l
  exact (probeFree_spec (keysOf l) (l.length + 1) 0
    ⟨m, Nat.zero_le m, by omega, hm2⟩).2.2 k (Nat.zero_le k) hk

/-- Keys of a key-filtered mapping are the filtered keys. -/
theorem keysOf_filter_ne (k : Nat) (l : List (Nat × FailState)) :
    keysOf (l.filter (fun p => p.1 != k)) = (keysOf l).filter (fun x => x != k) := by
  induction l with
  | nil => rfl
  | cons p rest ih =>
    simp only [keysOf] at ih ⊢
    cases hb : (p.1 != k) <;>
      simp [List.filter_cons, List.map_cons, hb, ih]

/-- Inserting under a key keeps the mapping's keys unique. -/
theorem nodup_keys_mapInsert (k : Nat) (v : FailState) (l : List (Nat × FailState))
    (h : (keysOf l).Nodup) : (keysOf (mapInsert k v l)).Nodup := by
  have heq : keysOf (mapInsert k v l) = k :: keysOf (l.filter (fun p => p.1 != k)) := rfl
  rw [heq, keysOf_filter_ne]
  refine List.nodup_cons.mpr ⟨?_, h.filter _⟩
  intro hmem
  have := (List.mem_filter.mp hmem).2
  simp at this

/-- Claim C9: a binary websocket payload is rejected as a protocol
violation: the session handler only logs it, makes no collaborator call
(no parse, no handler callback, no send), leaves the state unchanged, and
returns Ok so the session continues. -/
theorem claim_C9 (env : Env) (st : SessionState) (b : List Nat) :
    ApiHandler.on_message env st (.Binary b) = (st, [], .ok ()) := rfl

/-- Claim C5: mark_retry picks the smallest non-negative integer not
currently a key of the retry mapping (linear probe from zero), inserts the
fail state under it, and arms a timer for the delay tagged with it; the
insertion keeps the keys of the mapping unique. -/
theorem claim_C5 (env : Env) (st : SessionState) (fs : FailState) (d : Nat) :
    ApiHandler.mark_retry env st fs d =
      ({ st with retrying := mapInsert (freshHandle st.retrying) fs st.retrying },
       [.timeout d (freshHandle st.retrying)],
       env.timeout d (freshHandle st.retrying)) ∧
    freshHandle st.retrying ∉ keysOf st.retrying ∧
    (∀ m, m < freshHandle st.retrying → m ∈ keysOf st.retrying) ∧
    ((keysOf st.retrying).Nodup →
      (keysOf (mapInsert (freshHandle st.retrying) fs st.retrying)).Nodup) :=
  ⟨rfl, freshHandle_not_mem st.retrying, freshHandle_min st.retrying,
   nodup_keys_mapInsert (freshHandle st.retrying) fs st.retrying⟩

/-- Witness for C5 at a mapping already holding handle 0: the probe picks
handle 1, the new entry is inserted, 1 was free, 0 (below it) was taken,
and the keys stay unique. -/
theorem claim_C5_witness :
    ApiHandler.mark_retry envOk ⟨none, [(0, .Login)]⟩ .Login 15000 =
      (⟨none, [(1, .Login), (0, .Login)]⟩, [.timeout 15000 1], .ok ()) ∧
    1 ∉ keysOf [(0, FailState.Login)] ∧
    0 ∈ keysOf [(0, FailState.Login)] ∧
    (keysOf (mapInsert 1 .Login [(0, FailState.Login)])).Nodup := by
  have h := claim_C5 envOk ⟨none, [(0, .Login)]⟩ .Login 15000
  exact ⟨h.1, h.2.1, h.2.2.1 0 (by decide), h.2.2.2 (by decide)⟩

/-- Claim C4: on a transport timer fire, the handle's entry is removed
from the retry mapping if present and its recovery action runs: for Login
this repeats the authenticate-or-retry step on the removed mapping, either
sending the auth command if a token is now stored, or reporting
Unauthorized and scheduling a fresh 15-second retry if not; a fire for an
unknown handle is a no-op and returns Ok, never an error. -/
theorem claim_C4 (env : Env) (st : SessionState) (h : Nat) :
    (List.lookup h st.retrying = none →
      ApiHandler.on_timeout env st h = (st, [], .ok ())) ∧
    (∀ t, List.lookup h st.retrying = some .Login → st.token = some t →
      env.send (encode ("auth " ++ t)) = .ok () →
      ApiHandler.on_timeout env st h =
        (⟨none, mapRemove h st.retrying⟩,
         [.send (encode ("auth " ++ t))], .ok ())) ∧
    (List.lookup h st.retrying = some .Login → st.token = none →
      env.timeout (duration_ms 15 0) (freshHandle (mapRemove h st.retrying)) = .ok () →
      ApiHandler.on_timeout env st h =
        (⟨none, mapInsert (freshHandle (mapRemove h st.retrying)) .Login
            (mapRemove h st.retrying)⟩,
         [.onError .unauthorized,
          .timeout (duration_ms 15 0) (freshHandle (mapRemove h st.retrying))],
         .ok ())) := by
  refine ⟨fun habs => ?_, fun t hpres htok hsend => ?_, fun hpres htok htm => ?_⟩
  · simp [ApiHandler.on_timeout, habs]
  · simp [ApiHandler.on_timeout, hpres, ApiHandler.retry_failstate,
      ApiHandler.try_or_retry_auth, take_token, htok, Sender.authenticate,
      Sender.send_raw, hsend]
  · simp [ApiHandler.on_timeout, hpres, ApiHandler.retry_failstate,
      ApiHandler.try_or_retry_auth, take_token, htok, ApiHandler.mark_retry, htm]

/-- Witness for C4: firing handle 5 on an empty mapping is a no-op
returning Ok; firing handle 0 on a mapping holding it, with a token now
stored, removes the entry and sends the auth command; without a token it
removes the entry and re-schedules handle 0 with a 15-second delay. -/
theorem claim_C4_witness :
    ApiHandler.on_timeout envOk ⟨none, []⟩ 5 = (⟨none, []⟩, [], .ok ()) ∧
    ApiHandler.on_timeout envOk ⟨some "tok", [(0, .Login)]⟩ 0 =
      (⟨none, []⟩, [.send "[\"auth tok\"]"], .ok ()) ∧
    ApiHandler.on_timeout envOk ⟨none, [(0, .Login)]⟩ 0 =
      (⟨none, [(0, .Login)]⟩,
       [.onError .unauthorized, .timeout 15000 0], .ok ()) := by
  refine ⟨(claim_C4 envOk ⟨none, []⟩ 5).1 rfl, ?_, ?_⟩
  · have h := (claim_C4 envOk ⟨some "tok", [(0, .Login)]⟩ 0).2.1 "tok" rfl rfl rfl
    exact h
  · have h := (claim_C4 envOk ⟨none, [(0, .Login)]⟩ 0).2.2 rfl rfl rfl
    exact h

/-- Claim C1: on an inbound Open frame the session takes the stored token;
with a token present it sends the auth command wrapped as a one-element
JSON array, with no token it reports Unauthorized to the handler's
on_error and schedules a Login retry with a 15-second delay; either way
the Open event is still forwarded to on_communication and the callback
returns Ok. -/
theorem claim_C1 (env : Env) (st : SessionState)
    (hsend : ∀ f, env.send f = .ok ())
    (htm : ∀ d h, env.timeout d h = .ok ())
    (hcomm : ∀ r, env.onComm r = .ok ()) :
    (∀ t, st.token = some t →
      ApiHandler.on_message env st (.Text "o") =
        (⟨none, st.retrying⟩,
         [.send (encode ("auth " ++ t)), .onComm .Open], .ok ())) ∧
    (st.token = none →
      ApiHandler.on_message env st (.Text "o") =
        (⟨none, mapInsert (freshHandle st.retrying) .Login st.retrying⟩,
         [.onError .unauthorized,
          .timeout (duration_ms 15 0) (freshHandle st.retrying),
          .onComm .Open], .ok ())) := by
  have hp : ParsedResult.parse "o" = .ok .Open := rfl
  refine ⟨fun t ht => ?_, fun ht => ?_⟩
  · simp [ApiHandler.on_message, hp, ApiHandler.try_or_retry_auth, take_token, ht,
      Sender.authenticate, Sender.send_raw, hsend, hcomm]
  · simp [ApiHandler.on_message, hp, ApiHandler.try_or_retry_auth, take_token, ht,
      ApiHandler.mark_retry, htm, hcomm]

/-- Witness for C1: with stored token tok123 the Open frame produces the
outbound frame with the auth command; with no token it produces the
Unauthorized report and a 15000 ms retry under handle 0. -/
theorem claim_C1_witness :
    ApiHandler.on_message envOk ⟨some "tok123", []⟩ (.Text "o") =
      (⟨none, []⟩, [.send "[\"auth tok123\"]", .onComm .Open], .ok ()) ∧
    ApiHandler.on_message envOk ⟨none, []⟩ (.Text "o") =
      (⟨none, [(0, .Login)]⟩,
       [.onError .unauthorized, .timeout 15000 0, .onComm .Open], .ok ()) := by
  have h1 := (claim_C1 envOk ⟨some "tok123", []⟩ (fun _ => rfl) (fun _ _ => rfl)
    (fun _ => rfl)).1 "tok123" rfl
  have h2 := (claim_C1 envOk ⟨none, []⟩ (fun _ => rfl) (fun _ _ => rfl)
    (fun _ => rfl)).2 rfl
  exact ⟨h1, h2⟩

/-- Counterexample for C3 as stated: the claim asserts that the heartbeat
reply is also sent wrapped as a one-element array containing the empty
frame; in the code the session transmits exactly the literal
two-character frame and never the wrapped form. -/
theorem claim_C3_counterexample :
    ApiHandler.on_message envOk ⟨none, []⟩ (.Text "h") =
      (⟨none, []⟩, [.send "[]", .onComm .Heartbeat], .ok ()) ∧
    ("[]" : String) ≠ "[\"[]\"]" ∧
    (Effect.send "[\"[]\"]") ∉ [Effect.send "[]", Effect.onComm .Heartbeat] := by
  refine ⟨rfl, by decide, by decide⟩

/-- Claim C3 (amended): on an inbound Heartbeat frame the session
automatically transmits the literal two-character empty-array frame,
exactly the frame send_empty_frame transmits; the reply is internal (the
only handler call in the trace is the forward of the classified Heartbeat
to on_communication). -/
theorem claim_C3_amended (env : Env) (st : SessionState)
    (hsend : env.send "[]" = .ok ())
    (hcomm : env.onComm .Heartbeat = .ok ()) :
    ApiHandler.on_message env st (.Text "h") =
      (st, [.send "[]", .onComm .Heartbeat], .ok ()) ∧
    (Sender.send_empty_frame env).1 = [.send "[]"] := by
  have hp : ParsedResult.parse "h" = .ok .Heartbeat := rfl
  constructor
  · simp [ApiHandler.on_message, hp, hsend, hcomm]
  · rfl

/-- Witness for C3 (amended) in the all-succeeding environment. -/
theorem claim_C3_witness :
    ApiHandler.on_message envOk ⟨none, []⟩ (.Text "h") =
      (⟨none, []⟩, [.send "[]", .onComm .Heartbeat], .ok ()) ∧
    (Sender.send_empty_frame envOk).1 = [.send "[]"] := by
  exact claim_C3_amended envOk ⟨none, []⟩ rfl rfl

/-- Claim C8: an inbound text frame whose first character is not one of
o, h, c, m, a parses to a FrameError carrying the raw text, and whenever
parsing yields an error the session handler reports it to on_error and
continues: the callback returns Ok, the state (including the retry
mapping) is unchanged, and no other collaborator call happens. -/
theorem claim_C8 :
    (∀ (s : String) (c : Char) (rest : List Char), s.data = c :: rest →
      c ∉ ['o', 'h', 'c', 'm', 'a'] → ParsedResult.parse s = .error ⟨s⟩) ∧
    (∀ (env : Env) (st : SessionState) (s : String) (e : FrameError),
      ParsedResult.parse s = .error e →
      ApiHandler.on_message env st (.Text s) =
        (st, [.onError (.frame e)], .ok ())) := by
  constructor
  · intro s c rest hdata hc
    simp only [List.mem_cons, List.mem_singleton] at hc
    push_neg at hc
    obtain ⟨h1, h2, h3, h4, h5⟩ := hc
    simp [ParsedResult.parse, hdata, h1, h2, h3, h4, h5]
  · intro env st s e hp
    simp [ApiHandler.on_message, hp]

/-- Witness for C8: the frame x has an unsupported first character, parses
to the FrameError holding it, and the session handler reports that error
and returns Ok with the state untouched. -/
theorem claim_C8_witness :
    ParsedResult.parse "x" = .error ⟨"x"⟩ ∧
    ApiHandler.on_message envOk ⟨none, [(0, .Login)]⟩ (.Text "x") =
      (⟨none, [(0, .Login)]⟩, [.onError (.frame ⟨"x"⟩)], .ok ()) := by
  refine ⟨claim_C8.1 "x" 'x' [] rfl (by decide), ?_⟩
  exact claim_C8.2 envOk ⟨none, [(0, .Login)]⟩ "x" ⟨"x"⟩ rfl

/-- Claim C10: while handling an Open frame, a transport failure of the
auth send or of the retry-timer arming is caught, converted, and delivered
to the handler's on_error, and the message callback still returns Ok and
still forwards Open to on_communication; by contrast, a failure of the
heartbeat reply send propagates out of the callback and on_communication
is not reached. -/
theorem claim_C10 (env : Env) (st : SessionState) :
    (∀ t e, st.token = some t →
      env.send (encode ("auth " ++ t)) = .error e → env.onComm .Open = .ok () →
      ApiHandler.on_message env st (.Text "o") =
        (⟨none, st.retrying⟩,
         [.send (encode ("auth " ++ t)), .onError (.ws e), .onComm .Open],
         .ok ())) ∧
    (∀ e, st.token = none →
      env.timeout (duration_ms 15 0) (freshHandle st.retrying) = .error e →
      env.onComm .Open = .ok () →
      ApiHandler.on_message env st (.Text "o") =
        (⟨none, mapInsert (freshHandle st.retrying) .Login st.retrying⟩,
         [.onError .unauthorized,
          .timeout (duration_ms 15 0) (freshHandle st.retrying),
          .onError (.ws e), .onComm .Open],
         .ok ())) ∧
    (∀ e, env.send "[]" = .error e →
      ApiHandler.on_message env st (.Text "h") =
        (st, [.send "[]"], .error e)) := by
  have hpo : ParsedResult.parse "o" = .ok .Open := rfl
  have hph : ParsedResult.parse "h" = .ok .Heartbeat := rfl
  refine ⟨fun t e ht hsend hcomm => ?_, fun e ht htm hcomm => ?_, fun e hsend => ?_⟩
  · simp [ApiHandler.on_message, hpo, ApiHandler.try_or_retry_auth, take_token, ht,
      Sender.authenticate, Sender.send_raw, hsend, hcomm]
  · simp [ApiHandler.on_message, hpo, ApiHandler.try_or_retry_auth, take_token, ht,
      ApiHandler.mark_retry, htm, hcomm]
  · simp [ApiHandler.on_message, hph, hsend]

/-- Witness for C10: with a transport whose sends fail, the Open frame
with a stored token yields the converted error on on_error and an Ok
callback result, and the Heartbeat frame propagates the send error; with
a transport whose timer arming fails, the tokenless Open frame also
swallows the error into on_error. -/
theorem claim_C10_witness :
    ApiHandler.on_message ⟨fun _ => .error ⟨"io"⟩, fun _ _ => .ok (), fun _ => .ok ()⟩
        ⟨some "tok", []⟩ (.Text "o") =
      (⟨none, []⟩,
       [.send "[\"auth tok\"]", .onError (.ws ⟨"io"⟩), .onComm .Open], .ok ()) ∧
    ApiHandler.on_message ⟨fun _ => .ok (), fun _ _ => .error ⟨"tm"⟩, fun _ => .ok ()⟩
        ⟨none, []⟩ (.Text "o") =
      (⟨none, [(0, .Login)]⟩,
       [.onError .unauthorized, .timeout 15000 0, .onError (.ws ⟨"tm"⟩),
        .onComm .Open], .ok ()) ∧
    ApiHandler.on_message ⟨fun _ => .error ⟨"io"⟩, fun _ _ => .ok (), fun _ => .ok ()⟩
        ⟨none, []⟩ (.Text "h") =
      (⟨none, []⟩, [.send "[]"], .error ⟨"io"⟩) := by
  refine ⟨?_, ?_, ?_⟩
  · exact (claim_C10 ⟨fun _ => .error ⟨"io"⟩, fun _ _ => .ok (), fun _ => .ok ()⟩
      ⟨some "tok", []⟩).1 "tok" ⟨"io"⟩ rfl rfl rfl
  · exact (claim_C10 ⟨fun _ => .ok (), fun _ _ => .error ⟨"tm"⟩, fun _ => .ok ()⟩
      ⟨none, []⟩).2.1 ⟨"tm"⟩ rfl rfl rfl
  · exact (claim_C10 ⟨fun _ => .error ⟨"io"⟩, fun _ _ => .ok (), fun _ => .ok ()⟩
      ⟨none, []⟩).2.2 ⟨"io"⟩ rfl

/-- Claim C6: topic construction is a pure function of the variant's
fields following the fixed templates, and subscribe/unsubscribe send the
frame obtained by encoding the topic with the subscribe/unsubscribe word
and a space prepended; includes the concrete table entries and the
subscribe scenario from the spec. -/
theorem claim_C6 :
    (∀ (env : Env) (ch : Channel),
      (Sender.subscribe env ch).1 =
        [.send (encode ("subscribe " ++ ch.to_string))] ∧
      (Sender.unsubscribe env ch).1 =
        [.send (encode ("unsubscribe " ++ ch.to_string))]) ∧
    Channel.to_string Channel.server_messages = "server-message" ∧
    (∀ i, Channel.to_string (Channel.user_cpu i) = "user:" ++ i ++ "/cpu") ∧
    (∀ i, Channel.to_string (Channel.user_messages i) = "user:" ++ i ++ "/newMessage") ∧
    (∀ i t, Channel.to_string (Channel.user_convesation i t) =
      "user:" ++ i ++ "/message:" ++ t) ∧
    (∀ i, Channel.to_string (Channel.user_credits i) = "user:" ++ i ++ "/money") ∧
    (∀ i p, Channel.to_string (Channel.user_memory_path i p) =
      "user:" ++ i ++ "/memory/" ++ p) ∧
    (∀ i, Channel.to_string (Channel.user_console i) = "user:" ++ i ++ "/console") ∧
    (∀ i, Channel.to_string (Channel.user_active_branch i) =
      "user:" ++ i ++ "/set-active-branch") ∧
    (∀ r, Channel.to_string (Channel.map_room_updates r) = "roomMap2:" ++ r) ∧
    (∀ r, Channel.to_string (Channel.room_updates r) = "room:" ++ r) ∧
    Channel.to_string (Channel.user_cpu "U1") = "user:U1/cpu" ∧
    Channel.to_string (Channel.room_updates "E1N1") = "room:E1N1" ∧
    (Sender.subscribe envOk (Channel.room_updates "E5N39")).1 =
      [.send "[\"subscribe room:E5N39\"]"] := by
  refine ⟨fun env ch => ?_, rfl, fun i => rfl, fun i => rfl, fun i t => rfl,
    fun i => rfl, fun i p => rfl, fun i => rfl, fun i => rfl, fun r => rfl,
    fun r => rfl, rfl, rfl, rfl⟩
  cases ch <;> exact ⟨rfl, rfl⟩

/-- Claim C7: the default on_communication dispatches a Messages batch to
on_message once per message in batch order, stopping at and propagating
the first error, so every message before the failing one is dispatched,
the failing one is dispatched last, and the rest are never attempted; a
single Message frame produces exactly one dispatch; the spec's two-object
batch frame parses to a two-entry Messages batch. -/
theorem claim_C7 (omr : ParsedMessage → Except WsError Unit) :
    (∀ m, Handler.on_communication omr (.Message m) = ([m], omr m)) ∧
    (∀ ms, (∀ m ∈ ms, omr m = .ok ()) →
      Handler.on_communication omr (.Messages ms) = (ms, .ok ())) ∧
    (∀ l1 m e l2, (∀ x ∈ l1, omr x = .ok ()) → omr m = .error e →
      Handler.on_communication omr (.Messages (l1 ++ m :: l2)) =
        (l1 ++ [m], .error e)) ∧
    ParsedResult.parse "a[\"\x7b\\\"a\\\":1\x7d\",\"\x7b\\\"b\\\":2\x7d\"]" =
      .ok (.Messages [⟨"\x7b\"a\":1\x7d"⟩, ⟨"\x7b\"b\":2\x7d"⟩]) := by
  refine ⟨fun m => rfl, fun ms hok => ?_, fun l1 m e l2 hok herr => ?_, rfl⟩
  · show dispatchList omr ms = (ms, .ok ())
    induction ms with
    | nil => rfl
    | cons x rest ih =>
      have hx := hok x (List.mem_cons_self x rest)
      simp [dispatchList, hx, ih (fun m hm => hok m (List.mem_cons_of_mem x hm))]
  · show dispatchList omr (l1 ++ m :: l2) = (l1 ++ [m], .error e)
    induction l1 with
    | nil => simp [dispatchList, herr]
    | cons x rest ih =>
      have hx := hok x (List.mem_cons_self x rest)
      simp [dispatchList, hx, ih (fun y hy => hok y (List.mem_cons_of_mem x hy))]

/-- Witness for C7: in a two-message batch whose first dispatch fails,
only the first message is dispatched and the error propagates; with an
always-succeeding on_message both are dispatched in order; a single
Message frame dispatches once. -/
theorem claim_C7_witness :
    Handler.on_communication
        (fun m => if m.payload = "p1" then .error ⟨"fail"⟩ else .ok ())
        (.Messages [⟨"p1"⟩, ⟨"p2"⟩]) = ([⟨"p1"⟩], .error ⟨"fail"⟩) ∧
    Handler.on_communication (fun _ => .ok ()) (.Messages [⟨"p1"⟩, ⟨"p2"⟩]) =
      ([⟨"p1"⟩, ⟨"p2"⟩], .ok ()) ∧
    Handler.on_communication (fun _ => .ok ()) (.Message ⟨"p1"⟩) =
      ([⟨"p1"⟩], .ok ()) := by
  refine ⟨?_, ?_, ?_⟩
  · exact (claim_C7 (fun m => if m.payload = "p1" then .error ⟨"fail"⟩ else .ok ())).2.2.1
      [] ⟨"p1"⟩ ⟨"fail"⟩ [⟨"p2"⟩] (by simp) rfl
  · exact (claim_C7 (fun _ => .ok ())).2.1 [⟨"p1"⟩, ⟨"p2"⟩] (fun m _ => rfl)
  · exact (claim_C7 (fun _ => .ok ())).1 ⟨"p1"⟩

/-- Length of a concatenation of strings, at the character-list level. -/
theorem str_length_append (a b : String) : (a ++ b).length = a.length + b.length := by
  show (a.data ++ b.data).length = a.data.length + b.data.length
  exact List.length_append a.data b.data

/-- Every frame sent by the authenticate-or-retry step is an encoded
command. -/
theorem sentFrames_try_or_retry (env : Env) (st : SessionState) :
    ∀ f ∈ sentFrames (ApiHandler.try_or_retry_auth env st).2.1,
      ∃ cmd, f = encode cmd := by
  intro f hf
  cases htok : st.token with
  | some t =>
    simp [ApiHandler.try_or_retry_auth, take_token, htok, Sender.authenticate,
      Sender.send_raw, sentFrames] at hf
    exact ⟨"auth " ++ t, hf⟩
  | none =>
    simp [ApiHandler.try_or_retry_auth, take_token, htok, ApiHandler.mark_retry,
      sentFrames] at hf

/-- Splitting the sent frames of a concatenated trace. -/
theorem sentFrames_append (a b : List Effect) :
    sentFrames (a ++ b) = sentFrames a ++ sentFrames b :=
  List.filterMap_append a b _

/-- An on_error delivery contributes no sent frame. -/
theorem sentFrames_onError (e : SockError) : sentFrames [Effect.onError e] = [] := rfl

/-- An on_communication forward contributes no sent frame. -/
theorem sentFrames_onComm (r : ParsedResult) : sentFrames [Effect.onComm r] = [] := rfl

/-- Counterexample for C2 as stated: the heartbeat reply the session
transmits is the literal empty-array frame, and no command encodes to it
(every encoded frame has length at least four), so single-element-array
wrapping is not the only outbound frame shape. -/
theorem claim_C2_counterexample :
    (ApiHandler.on_message envOk ⟨none, []⟩ (.Text "h")).2.1 =
      [.send "[]", .onComm .Heartbeat] ∧
    (Sender.send_empty_frame envOk).1 = [.send "[]"] ∧
    ¬ ∃ cmd, encode cmd = "[]" := by
  refine ⟨rfl, rfl, ?_⟩
  rintro ⟨cmd, hc⟩
  have hlen : (encode cmd).length = 2 := by rw [hc]; rfl
  have hsplit : (encode cmd).length =
      ("[\"" : String).length + (jsonEscape cmd).length + ("\"]" : String).length := by
    rw [encode, str_length_append, str_length_append]
  have h1 : ("[\"" : String).length = 2 := rfl
  have h2 : ("\"]" : String).length = 2 := rfl
  omega

/-- Claim C2 (amended): every outbound frame produced through send_raw
(and hence by authenticate, subscribe and unsubscribe) is the command
wrapped as a single-element JSON array; the one other outbound frame
shape is the literal empty-array frame, transmitted by send_empty_frame
and by the automatic heartbeat reply, so every frame the session handler
ever hands to the transport is either an encoded command or the empty
frame. -/
theorem claim_C2_amended (env : Env) :
    (∀ msg, (Sender.send_raw env msg).1 = [.send (encode msg)]) ∧
    (∀ t, (Sender.authenticate env t).1 = [.send (encode ("auth " ++ t))]) ∧
    (∀ ch, (Sender.subscribe env ch).1 =
      [.send (encode (ch.chain_and_complete_message "subscribe "))]) ∧
    (∀ ch, (Sender.unsubscribe env ch).1 =
      [.send (encode (ch.chain_and_complete_message "unsubscribe "))]) ∧
    (Sender.send_empty_frame env).1 = [.send "[]"] ∧
    (∀ st m f, f ∈ sentFrames (ApiHandler.on_message env st m).2.1 →
      (∃ cmd, f = encode cmd) ∨ f = "[]") ∧
    (∀ st tok f, f ∈ sentFrames (ApiHandler.on_timeout env st tok).2.1 →
      (∃ cmd, f = encode cmd) ∨ f = "[]") := by
  refine ⟨fun msg => rfl, fun t => rfl, fun ch => rfl, fun ch => rfl, rfl,
    fun st m f hf => ?_, fun st tok f hf => ?_⟩
  · cases m with
    | Binary b => simp [ApiHandler.on_message, sentFrames] at hf
    | Text s =>
      cases hps : ParsedResult.parse s with
      | error e => simp [ApiHandler.on_message, hps, sentFrames] at hf
      | ok v =>
        cases v with
        | Open =>
          have hsub := sentFrames_try_or_retry env st
          rcases h3 : ApiHandler.try_or_retry_auth env st with ⟨st2, effs, res⟩
          rw [h3] at hsub
          cases res with
          | error e =>
            simp only [ApiHandler.on_message, hps, h3] at hf
            simp only [sentFrames_append, sentFrames_onError, sentFrames_onComm,
              List.append_nil] at hf
            exact Or.inl (hsub f hf)
          | ok u =>
            simp only [ApiHandler.on_message, hps, h3] at hf
            simp only [sentFrames_append, sentFrames_onError, sentFrames_onComm,
              List.append_nil] at hf
            exact Or.inl (hsub f hf)
        | Heartbeat =>
          cases hs : env.send "[]" with
          | error e =>
            simp [ApiHandler.on_message, hps, hs, sentFrames] at hf
            exact Or.inr hf
          | ok u =>
            simp [ApiHandler.on_message, hps, hs, sentFrames] at hf
            exact Or.inr hf
        | Close code reason => simp [ApiHandler.on_message, hps, sentFrames] at hf
        | Message msg2 => simp [ApiHandler.on_message, hps, sentFrames] at hf
        | Messages msgs => simp [ApiHandler.on_message, hps, sentFrames] at hf
  · cases hl : List.lookup tok st.retrying with
    | none => simp [ApiHandler.on_timeout, hl, sentFrames] at hf
    | some state =>
      cases state
      have hsub := sentFrames_try_or_retry env
        { st with retrying := mapRemove tok st.retrying }
      rcases h3 : ApiHandler.try_or_retry_auth env
          { st with retrying := mapRemove tok st.retrying } with ⟨st2, effs, res⟩
      rw [h3] at hsub
      simp only [ApiHandler.on_timeout, hl, ApiHandler.retry_failstate, h3] at hf
      rcases res with e | u
      · exact Or.inl (hsub f hf)
      · exact Or.inl (hsub f hf)

/-- Witness for C2 (amended): the heartbeat trace contains exactly the
empty frame, which falls under the empty-frame disjunct, and the
token-present Open trace contains exactly the encoded auth command. -/
theorem claim_C2_witness :
    ((∃ cmd, "[]" = encode cmd) ∨ "[]" = "[]") ∧
    ((∃ cmd, "[\"auth tok\"]" = encode cmd) ∨ "[\"auth tok\"]" = "[]") := by
  constructor
  · exact (claim_C2_amended envOk).2.2.2.2.2.1 ⟨none, []⟩ (.Text "h") "[]" (by
      show "[]" ∈ sentFrames [Effect.send "[]", .onComm .Heartbeat]
      simp [sentFrames])
  · exact (claim_C2_amended envOk).2.2.2.2.2.1 ⟨some "tok", []⟩ (.Text "o")
      "[\"auth tok\"]" (by
      show "[\"auth tok\"]" ∈
        sentFrames [Effect.send "[\"auth tok\"]", .onComm .Open]
      simp [sentFrames])
